import Mathlib

/-!
# Verification of the spotify-stats web application (`application.py`)

A shallow embedding of the Flask application in `src/code/application.py`.
Each route handler becomes a pure Lean function from its inputs (session
contents, query parameters, and the upstream HTTP responses it would
receive) to the response it produces together with the trace of upstream
calls it performs.  Dictionary accesses that can raise `KeyError` in
Python (such as `t["album"]`) are modelled in the `Except String` monad;
`dict.get` with a default is modelled by `Option.getD`.
-/

namespace SpotifyStats

/-! ## Upstream JSON shapes -/

/-- One element of an `images` array: `{"url": ...}`. -/
structure Image where
  url : String
deriving DecidableEq, Repr

/-- The `album` object inside a top-tracks item: `id`, `name`, `images`. -/
structure AlbumObj where
  id : String
  name : String
  images : List Image
deriving DecidableEq, Repr

/-- An entry of a track's `artists` array: `{"name": ...}`. -/
structure ArtistRef where
  name : String
deriving DecidableEq, Repr

/-- A top-tracks item.  The `album` key may be absent (`none`), in which
case `t["album"]` raises `KeyError` in Python; the fields the handlers
read unconditionally are kept concrete. -/
structure TrackObj where
  name : String
  artists : List ArtistRef
  album : Option AlbumObj
deriving DecidableEq, Repr

/-- A top-artists item: `name` and `images`. -/
structure ArtistObj where
  name : String
  images : List Image
deriving DecidableEq, Repr

/-- A top-tracks / top-artists response body: the top-level `items` key
may be absent, and the handlers read it with `.get("items", [])`. -/
structure TopResp (α : Type) where
  items : Option (List α)
deriving DecidableEq, Repr

/-! ## Derived summaries (template variables) -/

/-- One entry of the `tracks` template variable built by `/stats`. -/
structure TrackSummary where
  name : String
  artist : String
  image : Option String
deriving DecidableEq, Repr

/-- One entry of the `artists` template variable built by `/stats`. -/
structure ArtistSummary where
  name : String
  image : Option String
deriving DecidableEq, Repr

/-- One entry of the `albums` template variable built by `/stats`. -/
structure AlbumSummary where
  name : String
  image : Option String
  count : Nat
deriving DecidableEq, Repr

/-! ## Session -/

/-- Lookup in an insertion-ordered dictionary represented as an
association list (Python `dict` access). -/
def assocFind (k : String) : List (String × α) → Option α
  | [] => none
  | (k', v) :: rest => if k' = k then some v else assocFind k rest

/-- The Flask session: an insertion-ordered dictionary from keys to
values; a stored value may itself be Python `None` (the inner `none`). -/
abbrev Session := List (String × Option String)

/-- Models `session.get(k)`: `none` both when the key is absent and when the
stored value is `None`. -/
def sessGet (s : Session) (k : String) : Option String :=
  (assocFind k s).bind id

/-- Models `session[k] = v`: update in place when the key exists, else append
(Python dictionaries keep insertion order). -/
def sessSet : Session → String → Option String → Session
  | [], k, v => [(k, v)]
  | (k', v') :: rest, k, v =>
    if k' = k then (k, v) :: rest else (k', v') :: sessSet rest k v

/-- Python truthiness of an optional string: `None` and `""` are falsy. -/
def truthy : Option String → Bool
  | none => false
  | some s => s != ""

/-! ## Upstream calls and responses -/

/-- One recently-played track as forwarded to the aggregation endpoint. -/
structure PlayedTrack where
  artist : String
  album : String
  played_at : String
deriving DecidableEq, Repr

/-- Body of an outgoing POST. -/
inductive Payload where
  | tokenExchange (grantType code : String)
      (redirectUri clientId clientSecret : Option String)
  | userStats (userId : String) (tracks : List PlayedTrack)
deriving DecidableEq, Repr

/-- One upstream side effect performed by a handler. -/
inductive Call where
  | httpGet (url : String) (auth : Option String)
  | httpPost (url : String) (payload : Payload)
  | s3Put (bucket key body : String)
  | s3Presign (bucket key : String) (expiresIn : Nat)
deriving DecidableEq, Repr

/-- The `Authorization` header a call carries, when it is an HTTP GET. -/
def Call.authHeader : Call → Option String
  | .httpGet _ a => a
  | _ => none

/-- Whether a call is an HTTP POST (used to say "nothing was forwarded"). -/
def Call.isPost : Call → Bool
  | .httpPost _ _ => true
  | _ => false

/-- The variables passed to `stats.html`. -/
structure StatsPage where
  tracks : List TrackSummary
  artists : List ArtistSummary
  albums : List AlbumSummary
  currentTimeRange : String
deriving DecidableEq, Repr

/-- A handler's response. -/
inductive Response where
  /-- `redirect(url_for(route))`. -/
  | redirectTo (route : String)
  /-- `redirect(url)` for a raw URL. -/
  | redirectUrl (url : String)
  /-- A plain string body with an HTTP status (Flask defaults to 200). -/
  | content (body : String) (status : Nat)
  /-- `render_template("stats.html", ...)`. -/
  | statsPage (page : StatsPage)
  /-- `render_template("recently_played.html", stats=...)`. -/
  | recentlyPlayedPage (stats : String)
deriving DecidableEq, Repr

/-- OAuth client configuration read from the environment (`os.getenv`,
so each value may be absent). -/
structure Config where
  clientId : Option String
  clientSecret : Option String
  redirectUri : Option String
deriving DecidableEq, Repr

def SPOTIFY_TOKEN_URL : String := "https://accounts.spotify.com/api/token"

def SPOTIFY_API_BASE_URL : String := "https://api.spotify.com/v1"

def API_GATEWAY_URL : String :=
  "https://uvdf0v98lb.execute-api.us-west-2.amazonaws.com/userstats"

/-! ## `/callback` -/

/-- The JSON body of the token-exchange response; `.get` yields `None`
for absent keys. -/
structure TokenJson where
  access_token : Option String
  refresh_token : Option String
deriving DecidableEq, Repr

/-- The `/callback` handler: its response, the resulting session, and
the upstream calls it makes, as a function of the `code` query parameter
and the (parsed) token-exchange response body. -/
def callback (cfg : Config) (sess : Session) (codeParam : Option String)
    (tokenJson : TokenJson) : List Call × Response × Session :=
  match codeParam with
  | none => ([], .content "Authorization failed." 400, sess)
  | some code =>
    let call := Call.httpPost SPOTIFY_TOKEN_URL
      (.tokenExchange "authorization_code" code
        cfg.redirectUri cfg.clientId cfg.clientSecret)
    let sess1 := sessSet sess "access_token" tokenJson.access_token
    let sess2 := sessSet sess1 "refresh_token" tokenJson.refresh_token
    ([call], .redirectTo "stats", sess2)

/-! ## `/stats` helpers -/

/-- Models `album["images"][0]["url"] if album["images"] else None`. -/
def firstImage : List Image → Option String
  | [] => none
  | i :: _ => some i.url

/-- Models `t["album"]`: raises `KeyError` when the key is absent. -/
def getAlbum (t : TrackObj) : Except String AlbumObj :=
  match t.album with
  | some a => .ok a
  | none => .error "KeyError: album"

/-- One entry of the `top_tracks` list comprehension. -/
def trackSummary (t : TrackObj) : Except String TrackSummary :=
  match getAlbum t with
  | .error e => .error e
  | .ok alb =>
    .ok { name := t.name
          artist := String.intercalate ", " (t.artists.map (fun a => a.name))
          image := firstImage alb.images }

/-- The `top_tracks` list comprehension over the fetched items
(faulting at the first malformed item, as the comprehension does). -/
def trackSummaries : List TrackObj → Except String (List TrackSummary)
  | [] => .ok []
  | t :: ts =>
    match trackSummary t with
    | .error e => .error e
    | .ok s =>
      match trackSummaries ts with
      | .error e => .error e
      | .ok rest => .ok (s :: rest)

/-- One entry of the `top_artists` list comprehension. -/
def artistSummary (a : ArtistObj) : ArtistSummary :=
  { name := a.name, image := firstImage a.images }

/-- The dictionary value first inserted for a new album id (count `0`,
immediately incremented by the loop). -/
def albumEntry (a : AlbumObj) : AlbumSummary :=
  { name := a.name, image := firstImage a.images, count := 0 }

/-- Models `albums[album_id]["count"] += 1` on an insertion-ordered dictionary. -/
def bumpCount : List (String × AlbumSummary) → String → List (String × AlbumSummary)
  | [], _ => []
  | (k, s) :: rest, i =>
    if k = i then (k, { s with count := s.count + 1 }) :: rest
    else (k, s) :: bumpCount rest i

/-- The album-grouping loop of `/stats`, after the `t["album"]` accesses
have been resolved to `AlbumObj`s (pure part). -/
def albumsFold : List AlbumObj → List (String × AlbumSummary) → List (String × AlbumSummary)
  | [], acc => acc
  | a :: rest, acc =>
    let acc1 := if (assocFind a.id acc).isSome then acc
                else acc ++ [(a.id, albumEntry a)]
    albumsFold rest (bumpCount acc1 a.id)

/-- The album-grouping loop of `/stats` exactly as written: each
iteration first evaluates `t["album"]`, which may raise. -/
def albumsLoop : List TrackObj → List (String × AlbumSummary) →
    Except String (List (String × AlbumSummary))
  | [], acc => .ok acc
  | t :: rest, acc =>
    match getAlbum t with
    | .error e => .error e
    | .ok album =>
      let acc1 := if (assocFind album.id acc).isSome then acc
                  else acc ++ [(album.id, albumEntry album)]
      albumsLoop rest (bumpCount acc1 album.id)

/-- The dictionary `albums` after the whole loop, starting from the empty dictionary. -/
def buildAlbums (items : List TrackObj) :
    Except String (List (String × AlbumSummary)) :=
  albumsLoop items []

/-- Resolving `t["album"]` across a list of tracks. -/
def getAlbums : List TrackObj → Except String (List AlbumObj)
  | [] => .ok []
  | t :: ts =>
    match getAlbum t with
    | .error e => .error e
    | .ok a =>
      match getAlbums ts with
      | .error e => .error e
      | .ok rest => .ok (a :: rest)

/-- Stable insertion for a descending sort by a `Nat` key: the new
element goes after every already-placed element with a strictly larger
key and before the first one whose key is `≤` its own.  Python's
`sorted(..., key=..., reverse=True)` is specified to be stable, and this
is the unique stable descending order. -/
def insDesc (key : α → Nat) (x : α) : List α → List α
  | [] => [x]
  | y :: ys => if key x < key y then y :: insDesc key x ys else x :: y :: ys

/-- Stable descending sort by a `Nat` key, modelling
`sorted(..., key=lambda x: x["count"], reverse=True)`. -/
def sortCountDesc (key : α → Nat) : List α → List α
  | [] => []
  | x :: xs => insDesc key x (sortCountDesc key xs)

/-! ## `/stats` -/

def tracksUrl (timeRange : String) : String :=
  SPOTIFY_API_BASE_URL ++ "/me/top/tracks?limit=10&time_range=" ++ timeRange

def artistsUrl (timeRange : String) : String :=
  SPOTIFY_API_BASE_URL ++ "/me/top/artists?limit=10&time_range=" ++ timeRange

/-- The `/stats` handler: the trace of upstream calls it performs, and
either its response or the unrecovered Python fault that aborts it. -/
def stats (sess : Session) (timeRangeParam : Option String)
    (tracksResp : TopResp TrackObj) (artistsResp : TopResp ArtistObj) :
    List Call × Except String Response :=
  let token := sessGet sess "access_token"
  if truthy token then
    let timeRange := timeRangeParam.getD "medium_term"
    let auth := "Bearer " ++ token.getD ""
    let c1 := Call.httpGet (tracksUrl timeRange) (some auth)
    let items := tracksResp.items.getD []
    match trackSummaries items with
    | .error e => ([c1], .error e)
    | .ok topTracks =>
      let c2 := Call.httpGet (artistsUrl timeRange) (some auth)
      let topArtists := (artistsResp.items.getD []).map artistSummary
      match buildAlbums items with
      | .error e => ([c1, c2], .error e)
      | .ok albums =>
        let topAlbums :=
          (sortCountDesc (fun s => s.count) (albums.map Prod.snd)).take 10
        ([c1, c2], .ok (.statsPage
          { tracks := topTracks
            artists := topArtists
            albums := topAlbums
            currentTimeRange := timeRange }))
  else ([], .ok (.redirectTo "login"))

/-! ## `/logout` -/

/-- Models `session.clear()` then `redirect(url_for("index"))`; the `index`
route renders the login page. -/
def logout (_sess : Session) : Response × Session :=
  (.redirectTo "index", [])

/-! ## `/recently_played` -/

/-- The `item["track"]["album"]` object. -/
structure AlbumRef where
  name : String
deriving DecidableEq, Repr

/-- The `item["track"]` object. -/
structure PlayTrack where
  artists : List ArtistRef
  album : AlbumRef
deriving DecidableEq, Repr

/-- One recently-played item. -/
structure PlayItem where
  track : PlayTrack
  played_at : String
deriving DecidableEq, Repr

/-- The upstream recently-played response: its status code, raw text
body, and the parsed `items` (absent key modelled as `none`). -/
structure RecentResp where
  status_code : Nat
  text : String
  items : Option (List PlayItem)
deriving DecidableEq, Repr

/-- Models `item["track"]["artists"][0]["name"]` etc.; indexing an empty
`artists` array raises `IndexError`. -/
def extractPlayed (item : PlayItem) : Except String PlayedTrack :=
  match item.track.artists with
  | [] => .error "IndexError: list index out of range"
  | a :: _ => .ok { artist := a.name
                    album := item.track.album.name
                    played_at := item.played_at }

/-- The `tracks` list comprehension of `/recently_played`. -/
def playedTracks : List PlayItem → Except String (List PlayedTrack)
  | [] => .ok []
  | i :: is =>
    match extractPlayed i with
    | .error e => .error e
    | .ok t =>
      match playedTracks is with
      | .error e => .error e
      | .ok rest => .ok (t :: rest)

def recentlyPlayedUrl : String :=
  SPOTIFY_API_BASE_URL ++ "/me/player/recently-played?limit=50"

/-- The `/recently_played` handler; `lambdaStats` stands for the parsed
JSON of the aggregation endpoint's reply. -/
def recently_played (sess : Session) (resp : RecentResp)
    (lambdaStats : String) : List Call × Except String Response :=
  let token := sessGet sess "access_token"
  if truthy token then
    let auth := "Bearer " ++ token.getD ""
    let c1 := Call.httpGet recentlyPlayedUrl (some auth)
    if resp.status_code ≠ 200 then
      ([c1], .ok (.content ("Error fetching Spotify data: " ++ resp.text) 200))
    else
      match playedTracks (resp.items.getD []) with
      | .error e => ([c1], .error e)
      | .ok tracks =>
        let c2 := Call.httpPost API_GATEWAY_URL (.userStats "demo" tracks)
        ([c1, c2], .ok (.recentlyPlayedPage lambdaStats))
  else ([], .ok (.redirectTo "login"))

/-! ## `/export` -/

/-- The fields of a top item that the CSV export reads. -/
structure CsvItem where
  name : String
  popularity : Nat
deriving DecidableEq, Repr

/-- The `csv.writer` field encoding with the default dialect
(`QUOTE_MINIMAL`): a field containing the delimiter, the quote
character, or a newline is wrapped in double quotes, with inner quotes
doubled. -/
def csvField (s : String) : String :=
  if s.data.any (fun c => c == ',' || c == '"' || c == '\r' || c == '\n') then
    "\"" ++ s.replace "\"" "\"\"" ++ "\""
  else s

/-- Comma-separated join (the csv module's default delimiter). -/
def sepJoin : List String → String
  | [] => ""
  | [x] => x
  | x :: y :: rest => x ++ "," ++ sepJoin (y :: rest)

/-- Models `writer.writerow(fields)`: comma-joined encoded fields terminated by
`\r\n` (the csv module's default line terminator). -/
def csvRow (fields : List String) : String :=
  sepJoin (fields.map csvField) ++ "\r\n"

def exTracksUrl (timeRange : String) : String :=
  SPOTIFY_API_BASE_URL ++ "/me/top/tracks?limit=20&time_range=" ++ timeRange

def exArtistsUrl (timeRange : String) : String :=
  SPOTIFY_API_BASE_URL ++ "/me/top/artists?limit=20&time_range=" ++ timeRange

/-- The CSV text produced by `/export`'s sequence of `writerow` calls. -/
def exportCsv (tracks artists : List CsvItem) : String :=
  csvRow ["Type", "Name", "Popularity"]
    ++ String.join (tracks.map (fun t => csvRow ["Track", t.name, toString t.popularity]))
    ++ String.join (artists.map (fun a => csvRow ["Artist", a.name, toString a.popularity]))

/-- The S3 object key: fixed base, the time range, and the
`%Y%m%d%H%M%S` timestamp `now`. -/
def exportKey (timeRange now : String) : String :=
  "spotify_report_" ++ timeRange ++ "_" ++ now ++ ".csv"

/-- The `/export` handler.  `now` is the formatted current timestamp and
`presign` models `generate_presigned_url` (bucket, key, expiry). -/
def exportRoute (sess : Session) (timeRangeParam : Option String)
    (tracksResp artistsResp : TopResp CsvItem) (bucket : String)
    (now : String) (presign : String → String → Nat → String) :
    List Call × Response :=
  let token := sessGet sess "access_token"
  if truthy token then
    let timeRange := timeRangeParam.getD "medium_term"
    let auth := "Bearer " ++ token.getD ""
    let c1 := Call.httpGet (exTracksUrl timeRange) (some auth)
    let c2 := Call.httpGet (exArtistsUrl timeRange) (some auth)
    let csvData := exportCsv (tracksResp.items.getD []) (artistsResp.items.getD [])
    let filename := exportKey timeRange now
    let url := presign bucket filename 3600
    ([c1, c2, .s3Put bucket filename csvData, .s3Presign bucket filename 3600],
      .redirectUrl url)
  else ([], .redirectTo "login")

/-! ## Statement-side definitions -/

/-- The distinct elements of a list, in first-occurrence order, skipping
those already in `seen`: the key order of a Python dict built by
insertion. -/
def firstKeysAux : List String → List String → List String
  | [], _ => []
  | i :: rest, seen =>
    if i ∈ seen then firstKeysAux rest seen
    else i :: firstKeysAux rest (seen ++ [i])

/-- The sum of the per-album counters. -/
def sumCounts (l : List (String × AlbumSummary)) : Nat :=
  (l.map (fun p => p.2.count)).sum

/-- The sort of the album dictionary with its ids carried along (the
code sorts the bare values; this ghost pairing lets statements speak
about the ids of the sorted entries). -/
def sortPairs (assoc : List (String × AlbumSummary)) :
    List (String × AlbumSummary) :=
  sortCountDesc (fun p => p.2.count) assoc

/-! ## Session lemmas -/

theorem assocFind_sessSet_self (s : Session) (k : String) (v : Option String) :
    assocFind k (sessSet s k v) = some v := by
  induction s with
  | nil => simp [sessSet, assocFind]
  | cons p rest ih =>
    obtain ⟨k', v'⟩ := p
    by_cases h : k' = k <;> simp [sessSet, assocFind, h, ih]

theorem sessGet_sessSet_self (s : Session) (k : String) (v : Option String) :
    sessGet (sessSet s k v) k = v := by
  simp [sessGet, assocFind_sessSet_self]

theorem assocFind_sessSet_other (s : Session) (k q : String) (v : Option String)
    (h : ¬ k = q) : assocFind q (sessSet s k v) = assocFind q s := by
  induction s with
  | nil => simp [sessSet, assocFind, h]
  | cons p rest ih =>
    obtain ⟨k', v'⟩ := p
    by_cases hk : k' = k
    · subst hk
      simp [sessSet, assocFind, h]
    · simp [sessSet, assocFind, hk, ih]

theorem sessGet_sessSet_other (s : Session) (k q : String) (v : Option String)
    (h : ¬ k = q) : sessGet (sessSet s k v) q = sessGet s q := by
  simp [sessGet, assocFind_sessSet_other s k q v h]

/-! ## The stable descending sort: permutation, sortedness, stability -/

theorem insDesc_perm (key : α → Nat) (x : α) (l : List α) :
    (insDesc key x l).Perm (x :: l) := by
  induction l with
  | nil => exact .refl _
  | cons y ys ih =>
    by_cases h : key x < key y
    · simp only [insDesc, if_pos h]
      exact (ih.cons y).trans (List.Perm.swap x y ys)
    · simp only [insDesc, if_neg h]
      exact .refl _

theorem sortCountDesc_perm (key : α → Nat) (l : List α) :
    (sortCountDesc key l).Perm l := by
  induction l with
  | nil => exact .refl _
  | cons x xs ih =>
    exact (insDesc_perm key x (sortCountDesc key xs)).trans (ih.cons x)

theorem mem_insDesc (key : α → Nat) (x : α) (l : List α) (z : α) :
    z ∈ insDesc key x l ↔ z = x ∨ z ∈ l := by
  rw [(insDesc_perm key x l).mem_iff, List.mem_cons]

theorem insDesc_pairwise (key : α → Nat) (x : α) (l : List α)
    (h : l.Pairwise (fun a b => key b ≤ key a)) :
    (insDesc key x l).Pairwise (fun a b => key b ≤ key a) := by
  induction l with
  | nil => simp [insDesc]
  | cons y ys ih =>
    rw [List.pairwise_cons] at h
    obtain ⟨h1, h2⟩ := h
    by_cases hlt : key x < key y
    · simp only [insDesc, if_pos hlt]
      rw [List.pairwise_cons]
      refine ⟨?_, ih h2⟩
      intro z hz
      rcases (mem_insDesc key x ys z).mp hz with rfl | hz'
      · exact Nat.le_of_lt hlt
      · exact h1 z hz'
    · simp only [insDesc, if_neg hlt]
      rw [List.pairwise_cons]
      refine ⟨?_, ?_⟩
      · intro z hz
        rcases List.mem_cons.mp hz with rfl | hz'
        · exact Nat.le_of_not_lt hlt
        · exact Nat.le_trans (h1 z hz') (Nat.le_of_not_lt hlt)
      · rw [List.pairwise_cons]
        exact ⟨h1, h2⟩

theorem sortCountDesc_pairwise (key : α → Nat) (l : List α) :
    (sortCountDesc key l).Pairwise (fun a b => key b ≤ key a) := by
  induction l with
  | nil => simp [sortCountDesc]
  | cons x xs ih => exact insDesc_pairwise key x _ ih

theorem filter_insDesc (key : α → Nat) (c : Nat) (x : α) (l : List α) :
    (insDesc key x l).filter (fun a => key a == c) =
      if key x == c then x :: l.filter (fun a => key a == c)
      else l.filter (fun a => key a == c) := by
  induction l with
  | nil => by_cases h : key x = c <;> simp [insDesc, h]
  | cons y ys ih =>
    by_cases hlt : key x < key y
    · simp only [insDesc, if_pos hlt]
      by_cases hx : key x = c
      · have hy : ¬ key y = c := by omega
        simp [List.filter_cons, hx, hy, ih]
      · by_cases hy : key y = c <;> simp [List.filter_cons, hx, hy, ih]
    · simp only [insDesc, if_neg hlt]
      by_cases hx : key x = c <;> simp [List.filter_cons, hx]

theorem filter_sortCountDesc (key : α → Nat) (c : Nat) (l : List α) :
    (sortCountDesc key l).filter (fun a => key a == c) =
      l.filter (fun a => key a == c) := by
  induction l with
  | nil => rfl
  | cons x xs ih =>
    show (insDesc key x (sortCountDesc key xs)).filter _ = _
    rw [filter_insDesc]
    by_cases hx : key x = c <;> simp [List.filter_cons, hx, ih]

theorem map_insDesc (f : α → β) (key : β → Nat) (x : α) (l : List α) :
    (insDesc (fun a => key (f a)) x l).map f = insDesc key (f x) (l.map f) := by
  induction l with
  | nil => rfl
  | cons y ys ih =>
    by_cases h : key (f x) < key (f y) <;> simp [insDesc, h, ih]

theorem map_sortCountDesc (f : α → β) (key : β → Nat) (l : List α) :
    (sortCountDesc (fun a => key (f a)) l).map f = sortCountDesc key (l.map f) := by
  induction l with
  | nil => rfl
  | cons x xs ih =>
    show (insDesc (fun a => key (f a)) x _).map f = _
    rw [map_insDesc, ih]
    rfl

theorem length_sortCountDesc (key : α → Nat) (l : List α) :
    (sortCountDesc key l).length = l.length :=
  (sortCountDesc_perm key l).length_eq

/-! ## Album aggregation lemmas -/

theorem keys_bumpCount (l : List (String × AlbumSummary)) (i : String) :
    (bumpCount l i).map Prod.fst = l.map Prod.fst := by
  induction l with
  | nil => rfl
  | cons p rest ih =>
    obtain ⟨k, s⟩ := p
    by_cases h : k = i <;> simp [bumpCount, h, ih]

theorem assocFind_bumpCount (l : List (String × AlbumSummary)) (i k : String) :
    assocFind k (bumpCount l i) =
      if i = k then
        (assocFind k l).map (fun s => { s with count := s.count + 1 })
      else assocFind k l := by
  induction l with
  | nil => by_cases h : i = k <;> simp [bumpCount, assocFind, h]
  | cons p rest ih =>
    obtain ⟨k', s⟩ := p
    by_cases hk' : k' = i
    · subst hk'
      by_cases hkk : k' = k
      · subst hkk
        simp [bumpCount, assocFind]
      · simp [bumpCount, assocFind, hkk]
    · by_cases hkk : k' = k
      · subst hkk
        have : ¬ i = k' := fun h => hk' h.symm
        simp [bumpCount, assocFind, hk', this]
      · simp [bumpCount, assocFind, hk', hkk, ih]

theorem assocFind_append_of_isSome (l l' : List (String × α)) (k : String) (v : α)
    (h : assocFind k l = some v) : assocFind k (l ++ l') = some v := by
  induction l with
  | nil => simp [assocFind] at h
  | cons p rest ih =>
    obtain ⟨k', v'⟩ := p
    by_cases hk : k' = k
    · simp [assocFind, hk] at h ⊢
      exact h
    · simp [assocFind, hk] at h ⊢
      exact ih h

theorem assocFind_append_of_none (l l' : List (String × α)) (k : String)
    (h : assocFind k l = none) : assocFind k (l ++ l') = assocFind k l' := by
  induction l with
  | nil => rfl
  | cons p rest ih =>
    obtain ⟨k', v'⟩ := p
    by_cases hk : k' = k
    · simp [assocFind, hk] at h
    · simp [assocFind, hk] at h ⊢
      exact ih h

/-- Characterization of the dictionary built by the `/stats` album loop:
an id already in the accumulator keeps its payload and gains the number
of occurrences among the new albums; a fresh id gets the payload of its
first occurrence and its total occurrence count. -/
theorem assocFind_albumsFold (albs : List AlbumObj)
    (acc : List (String × AlbumSummary)) (k : String) :
    assocFind k (albumsFold albs acc) =
      match assocFind k acc with
      | some s => some { s with count := s.count + albs.countP (fun a => a.id == k) }
      | none => (albs.find? (fun a => a.id == k)).map
          (fun a => { albumEntry a with count := albs.countP (fun x => x.id == k) })
      := by
  induction albs generalizing acc with
  | nil =>
    cases h : assocFind k acc <;> simp [albumsFold, h]
  | cons a rest ih =>
    simp only [albumsFold]
    rw [ih, assocFind_bumpCount]
    by_cases hik : a.id = k
    · subst hik
      have hfindpos : List.find? (fun x : AlbumObj => x.id == a.id) (a :: rest)
          = some a := by
        rw [List.find?_cons]
        simp
      rw [if_pos rfl, hfindpos]
      by_cases hmem : (assocFind a.id acc).isSome
      · rw [if_pos hmem]
        obtain ⟨s, hs⟩ := Option.isSome_iff_exists.mp hmem
        rw [hs]
        simp [List.countP_cons]
        omega
      · rw [if_neg hmem]
        have hnone : assocFind a.id acc = none :=
          Option.not_isSome_iff_eq_none.mp (by simpa using hmem)
        rw [assocFind_append_of_none _ _ _ hnone, hnone]
        simp [assocFind, albumEntry, List.countP_cons]
        omega
    · rw [if_neg hik]
      have hbeq : (a.id == k) = false := by
        simp [hik]
      have hfindneg : List.find? (fun x : AlbumObj => x.id == k) (a :: rest)
          = List.find? (fun x => x.id == k) rest := by
        rw [List.find?_cons]
        simp only [hbeq]
      have hcount : (a :: rest).countP (fun x => x.id == k)
          = rest.countP (fun x => x.id == k) := by
        simp [List.countP_cons, hik]
      by_cases hmem : (assocFind a.id acc).isSome
      · rw [if_pos hmem, hcount, hfindneg]
      · rw [if_neg hmem]
        have hnone2 : assocFind k [(a.id, albumEntry a)] = none := by
          simp [assocFind, hik]
        cases h : assocFind k acc with
        | some s =>
          rw [assocFind_append_of_isSome _ _ _ _ h, hcount, hfindneg]
        | none =>
          rw [assocFind_append_of_none _ _ _ h, hnone2, hcount, hfindneg]

/-! ## Keys of the album dictionary -/

theorem assocFind_isSome_iff (l : List (String × α)) (k : String) :
    (assocFind k l).isSome = true ↔ k ∈ l.map Prod.fst := by
  induction l with
  | nil => simp [assocFind]
  | cons p rest ih =>
    obtain ⟨k', v⟩ := p
    by_cases h : k' = k
    · subst h
      simp [assocFind]
    · have h' : ¬ k = k' := fun hh => h hh.symm
      simp [assocFind, h, ih, h']

theorem keys_albumsFold (albs : List AlbumObj) (acc : List (String × AlbumSummary)) :
    (albumsFold albs acc).map Prod.fst =
      acc.map Prod.fst ++ firstKeysAux (albs.map (fun a => a.id)) (acc.map Prod.fst) := by
  induction albs generalizing acc with
  | nil => simp [albumsFold, firstKeysAux]
  | cons a rest ih =>
    simp only [albumsFold, List.map_cons, firstKeysAux]
    by_cases hmem : a.id ∈ acc.map Prod.fst
    · have hs : (assocFind a.id acc).isSome = true :=
        (assocFind_isSome_iff acc a.id).mpr hmem
      rw [if_pos hs, if_pos hmem, ih, keys_bumpCount]
    · have hs : ¬ (assocFind a.id acc).isSome = true := fun h =>
        hmem ((assocFind_isSome_iff acc a.id).mp h)
      rw [if_neg hs, if_neg hmem, ih, keys_bumpCount]
      simp [List.append_assoc]

theorem mem_firstKeysAux (ids : List String) (seen : List String) (x : String) :
    x ∈ firstKeysAux ids seen ↔ x ∈ ids ∧ x ∉ seen := by
  induction ids generalizing seen with
  | nil => simp [firstKeysAux]
  | cons i rest ih =>
    by_cases hi : i ∈ seen
    · rw [firstKeysAux, if_pos hi, ih]
      by_cases hxi : x = i <;> simp [hxi, hi]
    · rw [firstKeysAux, if_neg hi]
      simp only [List.mem_cons, ih, List.mem_append, List.mem_singleton]
      by_cases hxi : x = i <;> simp [hxi, hi]

theorem nodup_firstKeysAux (ids seen : List String) :
    (firstKeysAux ids seen).Nodup := by
  induction ids generalizing seen with
  | nil => simp [firstKeysAux]
  | cons i rest ih =>
    by_cases hi : i ∈ seen
    · rw [firstKeysAux, if_pos hi]
      exact ih seen
    · rw [firstKeysAux, if_neg hi, List.nodup_cons]
      refine ⟨fun hmem => ?_, ih _⟩
      have := (mem_firstKeysAux rest (seen ++ [i]) i).mp hmem
      simp at this

theorem length_firstKeysAux (ids seen : List String) :
    (firstKeysAux ids seen).length ≤ ids.length := by
  induction ids generalizing seen with
  | nil => simp [firstKeysAux]
  | cons i rest ih =>
    by_cases hi : i ∈ seen
    · rw [firstKeysAux, if_pos hi]
      exact Nat.le_succ_of_le (ih seen)
    · rw [firstKeysAux, if_neg hi]
      simpa using Nat.succ_le_succ (ih (seen ++ [i]))

/-- An entry of an association list with duplicate-free keys is what
`assocFind` returns at its key. -/
theorem assocFind_eq_of_mem (l : List (String × α)) (p : String × α)
    (hnd : (l.map Prod.fst).Nodup) (hp : p ∈ l) : assocFind p.1 l = some p.2 := by
  induction l with
  | nil => simp at hp
  | cons q rest ih =>
    obtain ⟨k, v⟩ := q
    simp only [List.map_cons, List.nodup_cons] at hnd
    obtain ⟨hknot, hnd'⟩ := hnd
    rcases List.mem_cons.mp hp with rfl | hp'
    · simp [assocFind]
    · have hne : ¬ k = p.1 := by
        intro h
        subst h
        exact hknot (List.mem_map_of_mem Prod.fst hp')
      simp [assocFind, hne, ih hnd' hp']

/-! ## Total count bookkeeping -/

theorem sumCounts_bumpCount (l : List (String × AlbumSummary)) (i : String)
    (h : (assocFind i l).isSome = true) :
    sumCounts (bumpCount l i) = sumCounts l + 1 := by
  induction l with
  | nil => simp [assocFind] at h
  | cons p rest ih =>
    obtain ⟨k, s⟩ := p
    by_cases hk : k = i
    · simp [bumpCount, hk, sumCounts]
      omega
    · have h' : (assocFind i rest).isSome = true := by
        simpa [assocFind, hk] using h
      have := ih h'
      simp [bumpCount, hk, sumCounts] at this ⊢
      omega

theorem sumCounts_albumsFold (albs : List AlbumObj)
    (acc : List (String × AlbumSummary)) :
    sumCounts (albumsFold albs acc) = sumCounts acc + albs.length := by
  induction albs generalizing acc with
  | nil => simp [albumsFold]
  | cons a rest ih =>
    simp only [albumsFold]
    rw [ih]
    by_cases hmem : (assocFind a.id acc).isSome = true
    · rw [if_pos hmem, sumCounts_bumpCount _ _ hmem]
      simp
      omega
    · rw [if_neg hmem]
      have hnone : assocFind a.id acc = none :=
        Option.not_isSome_iff_eq_none.mp (by simpa using hmem)
      have hsome : (assocFind a.id (acc ++ [(a.id, albumEntry a)])).isSome = true := by
        rw [assocFind_append_of_none _ _ _ hnone]
        simp [assocFind]
      rw [sumCounts_bumpCount _ _ hsome]
      have hplain : sumCounts (acc ++ [(a.id, albumEntry a)]) = sumCounts acc := by
        simp [sumCounts, albumEntry]
      rw [hplain]
      simp
      omega

/-! ## Relating the faulting loop to its pure core -/

theorem albumsLoop_eq_fold (ts : List TrackObj) (albs : List AlbumObj)
    (acc : List (String × AlbumSummary)) (h : getAlbums ts = .ok albs) :
    albumsLoop ts acc = .ok (albumsFold albs acc) := by
  induction ts generalizing albs acc with
  | nil =>
    simp only [getAlbums, Except.ok.injEq] at h
    subst h
    rfl
  | cons t rest ih =>
    simp only [getAlbums] at h
    cases ha : getAlbum t with
    | error e => rw [ha] at h; simp at h
    | ok a =>
      rw [ha] at h
      cases hr : getAlbums rest with
      | error e => rw [hr] at h; simp at h
      | ok restAlbs =>
        rw [hr] at h
        simp only [Except.ok.injEq] at h
        subst h
        simp only [albumsLoop, ha, albumsFold]
        exact ih restAlbs _ hr

theorem getAlbums_length (ts : List TrackObj) (albs : List AlbumObj)
    (h : getAlbums ts = .ok albs) : albs.length = ts.length := by
  induction ts generalizing albs with
  | nil =>
    simp only [getAlbums, Except.ok.injEq] at h
    subst h
    rfl
  | cons t rest ih =>
    simp only [getAlbums] at h
    cases ha : getAlbum t with
    | error e => rw [ha] at h; simp at h
    | ok a =>
      rw [ha] at h
      cases hr : getAlbums rest with
      | error e => rw [hr] at h; simp at h
      | ok restAlbs =>
        rw [hr] at h
        simp only [Except.ok.injEq] at h
        subst h
        simp [ih restAlbs hr]

theorem trackSummaries_ok (ts : List TrackObj) (albs : List AlbumObj)
    (h : getAlbums ts = .ok albs) :
    ∃ l, trackSummaries ts = .ok l := by
  induction ts generalizing albs with
  | nil => exact ⟨[], rfl⟩
  | cons t rest ih =>
    simp only [getAlbums] at h
    cases ha : getAlbum t with
    | error e => rw [ha] at h; simp at h
    | ok a =>
      rw [ha] at h
      cases hr : getAlbums rest with
      | error e => rw [hr] at h; simp at h
      | ok restAlbs =>
        obtain ⟨l, hl⟩ := ih restAlbs hr
        refine ⟨{ name := t.name
                  artist := String.intercalate ", " (t.artists.map (fun a => a.name))
                  image := firstImage a.images } :: l, ?_⟩
        simp [trackSummaries, trackSummary, ha, hl]

/-! ## The album dictionary built from the empty accumulator -/

/-- Sorting the values equals sorting the (id, value) pairs and then
dropping the ids. -/
theorem sorted_values_eq (assoc : List (String × AlbumSummary)) :
    sortCountDesc (fun s => s.count) (assoc.map Prod.snd)
      = (sortPairs assoc).map Prod.snd := by
  rw [sortPairs]
  exact (map_sortCountDesc Prod.snd (fun s => s.count) assoc).symm

theorem albumsFold_keys_nil (albs : List AlbumObj) :
    (albumsFold albs []).map Prod.fst
      = firstKeysAux (albs.map (fun a => a.id)) [] := by
  simpa using keys_albumsFold albs []

theorem albumsFold_nodup (albs : List AlbumObj) :
    ((albumsFold albs []).map Prod.fst).Nodup := by
  rw [albumsFold_keys_nil]
  exact nodup_firstKeysAux _ _

theorem albumsFold_length_le (albs : List AlbumObj) :
    (albumsFold albs []).length ≤ albs.length := by
  have hlen : (albumsFold albs []).length
      = (firstKeysAux (albs.map (fun a => a.id)) []).length := by
    rw [← albumsFold_keys_nil]
    simp
  rw [hlen]
  have := length_firstKeysAux (albs.map (fun a => a.id)) []
  simpa using this

/-- Every entry of the album dictionary takes its name and image from
the first album occurrence with its id, and counts all occurrences. -/
theorem albumsFold_entry_spec (albs : List AlbumObj) (p : String × AlbumSummary)
    (hp : p ∈ albumsFold albs []) :
    ∃ a, albs.find? (fun x => x.id == p.1) = some a ∧
      p.2.name = a.name ∧ p.2.image = firstImage a.images ∧
      p.2.count = albs.countP (fun x => x.id == p.1) := by
  have hfind := assocFind_eq_of_mem (albumsFold albs []) p (albumsFold_nodup albs) hp
  have hchar := assocFind_albumsFold albs [] p.1
  rw [hfind] at hchar
  simp only [assocFind] at hchar
  cases hfa : albs.find? (fun x => x.id == p.1) with
  | none =>
    rw [hfa] at hchar
    simp at hchar
  | some a =>
    rw [hfa] at hchar
    simp only [Option.map_some', Option.some.injEq] at hchar
    exact ⟨a, rfl, by simp [hchar, albumEntry], by simp [hchar, albumEntry],
      by simp [hchar, albumEntry]⟩

/-- Evaluation of the `/stats` handler on an authenticated session when
field extraction succeeds. -/
theorem stats_eval (sess : Session) (trParam : Option String)
    (tracksResp : TopResp TrackObj) (artistsResp : TopResp ArtistObj)
    (items : List TrackObj) (topTracks : List TrackSummary)
    (assoc : List (String × AlbumSummary))
    (hauth : truthy (sessGet sess "access_token") = true)
    (hitems : tracksResp.items = some items)
    (hts : trackSummaries items = .ok topTracks)
    (hba : buildAlbums items = .ok assoc) :
    stats sess trParam tracksResp artistsResp =
      ([Call.httpGet (tracksUrl (trParam.getD "medium_term"))
          (some ("Bearer " ++ (sessGet sess "access_token").getD "")),
        Call.httpGet (artistsUrl (trParam.getD "medium_term"))
          (some ("Bearer " ++ (sessGet sess "access_token").getD ""))],
       .ok (.statsPage
         { tracks := topTracks
           artists := (artistsResp.items.getD []).map artistSummary
           albums := ((sortPairs assoc).map Prod.snd).take 10
           currentTimeRange := trParam.getD "medium_term" })) := by
  simp [stats, hauth, hitems, hts, hba, sorted_values_eq]

/-! ## Claim theorems -/

/-- Every upstream call an authenticated `/stats` request performs
carries the session token as a bearer Authorization header. -/
theorem stats_calls_auth (sess : Session) (trParam : Option String)
    (tracksResp : TopResp TrackObj) (artistsResp : TopResp ArtistObj)
    (h : truthy (sessGet sess "access_token") = true) :
    ∀ c ∈ (stats sess trParam tracksResp artistsResp).1,
      c.authHeader = some ("Bearer " ++ (sessGet sess "access_token").getD "") := by
  intro c hc
  rcases hts : trackSummaries (tracksResp.items.getD []) with e | tops
  · simp only [stats, h, if_true, hts] at hc
    simp at hc
    subst hc
    rfl
  · rcases hba : buildAlbums (tracksResp.items.getD []) with e | assoc
    · simp only [stats, h, if_true, hts, hba] at hc
      simp at hc
      rcases hc with rfl | rfl <;> rfl
    · simp only [stats, h, if_true, hts, hba] at hc
      simp at hc
      rcases hc with rfl | rfl <;> rfl

/-- Claim C2: with no access token in the session (key absent, stored as
`None`, or the empty string — all falsy in Python), each of `/stats`,
`/recently_played` and `/export` responds with a redirect to the login
route and performs no upstream call (empty call trace). -/
theorem unauthenticated_redirects_to_login (sess : Session)
    (h : truthy (sessGet sess "access_token") = false) :
    (∀ trParam tracksResp artistsResp,
      stats sess trParam tracksResp artistsResp
        = ([], .ok (.redirectTo "login"))) ∧
    (∀ resp lambdaStats,
      recently_played sess resp lambdaStats
        = ([], .ok (.redirectTo "login"))) ∧
    (∀ trParam tracksResp artistsResp bucket now presign,
      exportRoute sess trParam tracksResp artistsResp bucket now presign
        = ([], .redirectTo "login")) := by
  refine ⟨fun _ _ _ => ?_, fun _ _ => ?_, fun _ _ _ _ _ _ => ?_⟩ <;>
    simp [stats, recently_played, exportRoute, h]

theorem unauthenticated_redirects_to_login_witness :
    stats [("access_token", some "")] none ⟨none⟩ ⟨none⟩
      = ([], .ok (.redirectTo "login")) ∧
    recently_played [("access_token", some "")] ⟨200, "", none⟩ ""
      = ([], .ok (.redirectTo "login")) ∧
    exportRoute [("access_token", some "")] none ⟨none⟩ ⟨none⟩ "bkt"
        "20250101000000" (fun _ _ _ => "url")
      = ([], Response.redirectTo "login") := by
  have h := unauthenticated_redirects_to_login [("access_token", some "")]
    (by decide)
  exact ⟨h.1 none ⟨none⟩ ⟨none⟩, h.2.1 ⟨200, "", none⟩ "",
    h.2.2 none ⟨none⟩ ⟨none⟩ "bkt" "20250101000000" (fun _ _ _ => "url")⟩

/-- Claim C3: `/callback` with no `code` query parameter responds with HTTP
status 400 and body exactly "Authorization failed.", attempts no token
exchange (empty call trace), and leaves the session unchanged. -/
theorem callback_missing_code_fails (cfg : Config) (sess : Session)
    (tokenJson : TokenJson) :
    callback cfg sess none tokenJson
      = ([], .content "Authorization failed." 400, sess) := rfl

/-- Claim C4: `/callback` with a present code stores exactly the
`access_token` and `refresh_token` fields of the exchange response
(absent fields stored as `none`), never inspects the exchange outcome,
and always redirects to the stats route; when the response carried
`access_token = "T"`, the session is authenticated and every upstream
call of a later `/stats` request carries `Authorization: Bearer T`. -/
theorem callback_stores_tokens_and_redirects (cfg : Config) (sess : Session)
    (code : String) (tokenJson : TokenJson) :
    callback cfg sess (some code) tokenJson =
      ([Call.httpPost SPOTIFY_TOKEN_URL
          (.tokenExchange "authorization_code" code
            cfg.redirectUri cfg.clientId cfg.clientSecret)],
       .redirectTo "stats",
       sessSet (sessSet sess "access_token" tokenJson.access_token)
         "refresh_token" tokenJson.refresh_token) ∧
    (∀ rt : Option String,
      sessGet (sessSet (sessSet sess "access_token" (some "T"))
          "refresh_token" rt) "access_token" = some "T" ∧
      ∀ trParam tracksResp artistsResp c,
        c ∈ (stats (sessSet (sessSet sess "access_token" (some "T"))
              "refresh_token" rt) trParam tracksResp artistsResp).1 →
          c.authHeader = some "Bearer T") := by
  refine ⟨rfl, fun rt => ?_⟩
  have hget : sessGet (sessSet (sessSet sess "access_token" (some "T"))
      "refresh_token" rt) "access_token" = some "T" := by
    rw [sessGet_sessSet_other _ _ _ _ (by decide), sessGet_sessSet_self]
  refine ⟨hget, ?_⟩
  intro trParam tracksResp artistsResp c hc
  have htr : truthy (sessGet (sessSet (sessSet sess "access_token" (some "T"))
      "refresh_token" rt) "access_token") = true := by
    rw [hget]
    rfl
  have hcall := stats_calls_auth _ trParam tracksResp artistsResp htr c hc
  rw [hget] at hcall
  have hstr : ("Bearer " ++ ((some "T").getD "") : String) = "Bearer T" := rfl
  rw [hstr] at hcall
  exact hcall

theorem callback_stores_tokens_and_redirects_witness :
    callback ⟨none, none, none⟩ [] (some "abc") ⟨some "T", some "R"⟩ =
      ([Call.httpPost SPOTIFY_TOKEN_URL
          (.tokenExchange "authorization_code" "abc" none none none)],
       .redirectTo "stats",
       [("access_token", some "T"), ("refresh_token", some "R")]) ∧
    Call.authHeader (Call.httpGet (tracksUrl "medium_term") (some "Bearer T"))
      = some "Bearer T" := by
  have h := callback_stores_tokens_and_redirects ⟨none, none, none⟩ [] "abc"
    ⟨some "T", some "R"⟩
  refine ⟨h.1, ?_⟩
  exact (h.2 (some "R")).2 none ⟨some []⟩ ⟨some []⟩
    (Call.httpGet (tracksUrl "medium_term") (some "Bearer T")) (by decide)

/-- Claim C6 (counterexample to the claim as stated): on a non-200 upstream
status the page body is not the raw upstream body — it is the raw body
prefixed with "Error fetching Spotify data: ". -/
theorem recently_played_error_body_ne_raw :
    recently_played [("access_token", some "tok")] ⟨500, "oops", none⟩ "" =
      ([Call.httpGet recentlyPlayedUrl (some "Bearer tok")],
       .ok (.content "Error fetching Spotify data: oops" 200)) ∧
    "Error fetching Spotify data: oops" ≠ "oops" := by
  exact ⟨rfl, by decide⟩

/-- Claim C6 (amended): on a non-200 upstream status, `/recently_played`
responds with HTTP 200 and a plain-text body consisting of the fixed
text "Error fetching Spotify data: " followed by the raw upstream
response body, and forwards nothing to the aggregation endpoint (its
trace contains no POST). -/
theorem recently_played_non200_behavior (sess : Session) (resp : RecentResp)
    (lambdaStats : String)
    (hauth : truthy (sessGet sess "access_token") = true)
    (hstatus : resp.status_code ≠ 200) :
    recently_played sess resp lambdaStats =
      ([Call.httpGet recentlyPlayedUrl
          (some ("Bearer " ++ (sessGet sess "access_token").getD ""))],
       .ok (.content ("Error fetching Spotify data: " ++ resp.text) 200)) ∧
    (∀ c ∈ (recently_played sess resp lambdaStats).1, c.isPost = false) := by
  have heval : recently_played sess resp lambdaStats =
      ([Call.httpGet recentlyPlayedUrl
          (some ("Bearer " ++ (sessGet sess "access_token").getD ""))],
       .ok (.content ("Error fetching Spotify data: " ++ resp.text) 200)) := by
    simp [recently_played, hauth, hstatus]
  refine ⟨heval, ?_⟩
  intro c hc
  rw [heval] at hc
  simp at hc
  subst hc
  rfl

theorem recently_played_non200_behavior_witness :
    recently_played [("access_token", some "t")] ⟨404, "err", none⟩ "" =
      ([Call.httpGet recentlyPlayedUrl (some "Bearer t")],
       .ok (.content "Error fetching Spotify data: err" 200)) ∧
    (∀ c ∈ (recently_played [("access_token", some "t")]
        ⟨404, "err", none⟩ "").1, Call.isPost c = false) := by
  have h := recently_played_non200_behavior [("access_token", some "t")]
    ⟨404, "err", none⟩ "" (by decide) (by decide)
  exact ⟨h.1, h.2⟩

/-- Claim C7: `/logout` unconditionally clears the whole session — the
resulting session is empty, so neither token nor any other key
survives — and redirects to the `index` route, which serves the login
page; a subsequent `/stats` request in that session redirects to the
login route. -/
theorem logout_clears_session_then_stats_redirects (sess : Session) :
    logout sess = (Response.redirectTo "index", ([] : Session)) ∧
    (∀ trParam tracksResp artistsResp,
      stats (logout sess).2 trParam tracksResp artistsResp
        = ([], .ok (.redirectTo "login"))) :=
  ⟨rfl, fun _ _ _ => rfl⟩

/-- Claim C8: `/stats` and `/export` default an absent `time_range` to
`medium_term`, and splice any present value — whether or not it belongs
to {short_term, medium_term, long_term} — verbatim into the upstream
request URLs (and, for `/export`, into the object key), with no local
validation or rejection. -/
theorem time_range_default_and_passthrough :
    (∀ (sess : Session) (tracksResp : TopResp TrackObj)
        (artistsResp : TopResp ArtistObj),
      stats sess none tracksResp artistsResp
        = stats sess (some "medium_term") tracksResp artistsResp) ∧
    (∀ (sess : Session) (tracksResp artistsResp : TopResp CsvItem)
        (bucket now : String) (presign : String → String → Nat → String),
      exportRoute sess none tracksResp artistsResp bucket now presign
        = exportRoute sess (some "medium_term") tracksResp artistsResp
            bucket now presign) ∧
    (∀ (v : String) (sess : Session) (tracksResp : TopResp TrackObj)
        (artistsResp : TopResp ArtistObj),
      truthy (sessGet sess "access_token") = true →
      ∃ rest, (stats sess (some v) tracksResp artistsResp).1 =
        Call.httpGet
          ("https://api.spotify.com/v1/me/top/tracks?limit=10&time_range=" ++ v)
          (some ("Bearer " ++ (sessGet sess "access_token").getD "")) :: rest) ∧
    (∀ (v : String) (sess : Session) (tracksResp artistsResp : TopResp CsvItem)
        (bucket now : String) (presign : String → String → Nat → String),
      truthy (sessGet sess "access_token") = true →
      (exportRoute sess (some v) tracksResp artistsResp bucket now presign).1 =
        [Call.httpGet
           ("https://api.spotify.com/v1/me/top/tracks?limit=20&time_range=" ++ v)
           (some ("Bearer " ++ (sessGet sess "access_token").getD "")),
         Call.httpGet
           ("https://api.spotify.com/v1/me/top/artists?limit=20&time_range=" ++ v)
           (some ("Bearer " ++ (sessGet sess "access_token").getD "")),
         Call.s3Put bucket ("spotify_report_" ++ v ++ "_" ++ now ++ ".csv")
           (exportCsv (tracksResp.items.getD []) (artistsResp.items.getD [])),
         Call.s3Presign bucket ("spotify_report_" ++ v ++ "_" ++ now ++ ".csv")
           3600]) := by
  refine ⟨fun _ _ _ => rfl, fun _ _ _ _ _ _ => rfl, ?_, ?_⟩
  · intro v sess tracksResp artistsResp hauth
    rcases hts : trackSummaries (tracksResp.items.getD []) with e | tops
    · exact ⟨[], by simp [stats, hauth, hts, tracksUrl, SPOTIFY_API_BASE_URL]⟩
    · rcases hba : buildAlbums (tracksResp.items.getD []) with e | assoc
      · refine ⟨[Call.httpGet (artistsUrl v)
          (some ("Bearer " ++ (sessGet sess "access_token").getD ""))], ?_⟩
        simp [stats, hauth, hts, hba, tracksUrl, SPOTIFY_API_BASE_URL]
      · refine ⟨[Call.httpGet (artistsUrl v)
          (some ("Bearer " ++ (sessGet sess "access_token").getD ""))], ?_⟩
        simp [stats, hauth, hts, hba, tracksUrl, SPOTIFY_API_BASE_URL]
  · intro v sess tracksResp artistsResp bucket now presign hauth
    simp [exportRoute, hauth, exTracksUrl, exArtistsUrl, exportKey,
      SPOTIFY_API_BASE_URL]

theorem time_range_default_and_passthrough_witness :
    (∃ rest, (stats [("access_token", some "tk")] (some "bogus_range")
        ⟨none⟩ ⟨none⟩).1 =
      Call.httpGet
        ("https://api.spotify.com/v1/me/top/tracks?limit=10&time_range="
          ++ "bogus_range") (some "Bearer tk") :: rest) ∧
    (exportRoute [("access_token", some "tk")] (some "bogus_range")
        ⟨none⟩ ⟨none⟩ "bkt" "20250101000000" (fun _ _ _ => "url")).1 =
      [Call.httpGet
         ("https://api.spotify.com/v1/me/top/tracks?limit=20&time_range="
           ++ "bogus_range") (some "Bearer tk"),
       Call.httpGet
         ("https://api.spotify.com/v1/me/top/artists?limit=20&time_range="
           ++ "bogus_range") (some "Bearer tk"),
       Call.s3Put "bkt"
         ("spotify_report_" ++ "bogus_range" ++ "_" ++ "20250101000000"
           ++ ".csv") (exportCsv [] []),
       Call.s3Presign "bkt"
         ("spotify_report_" ++ "bogus_range" ++ "_" ++ "20250101000000"
           ++ ".csv") 3600] := by
  have h := time_range_default_and_passthrough
  exact ⟨h.2.2.1 "bogus_range" [("access_token", some "tk")] ⟨none⟩ ⟨none⟩
      (by decide),
    h.2.2.2 "bogus_range" [("access_token", some "tk")] ⟨none⟩ ⟨none⟩ "bkt"
      "20250101000000" (fun _ _ _ => "url") (by decide)⟩

/-- Claim C9: when both top-items responses lack the top-level `items` key,
`/stats` does not fault: it renders with empty track, artist, and album
lists (the `.get("items", [])` default makes this branch total).  In
contrast, a missing field below `items` — here a track without an
`album` key — is an unrecovered fault. -/
theorem stats_missing_items_total :
    (∀ (sess : Session) (trParam : Option String)
        (tracksResp : TopResp TrackObj) (artistsResp : TopResp ArtistObj),
      truthy (sessGet sess "access_token") = true →
      tracksResp.items = none → artistsResp.items = none →
      stats sess trParam tracksResp artistsResp =
        ([Call.httpGet (tracksUrl (trParam.getD "medium_term"))
            (some ("Bearer " ++ (sessGet sess "access_token").getD "")),
          Call.httpGet (artistsUrl (trParam.getD "medium_term"))
            (some ("Bearer " ++ (sessGet sess "access_token").getD ""))],
         .ok (.statsPage
           { tracks := [], artists := [], albums := [],
             currentTimeRange := trParam.getD "medium_term" }))) ∧
    stats [("access_token", some "x")] none
        ⟨some [{ name := "t", artists := [], album := none }]⟩ ⟨some []⟩ =
      ([Call.httpGet (tracksUrl "medium_term") (some "Bearer x")],
       .error "KeyError: album") := by
  constructor
  · intro sess trParam tracksResp artistsResp hauth h1 h2
    simp [stats, hauth, h1, h2, trackSummaries, buildAlbums, albumsLoop,
      sortCountDesc]
  · rfl

theorem stats_missing_items_total_witness :
    stats [("access_token", some "x")] none ⟨none⟩ ⟨none⟩ =
      ([Call.httpGet (tracksUrl "medium_term") (some "Bearer x"),
        Call.httpGet (artistsUrl "medium_term") (some "Bearer x")],
       .ok (.statsPage
         { tracks := [], artists := [], albums := [],
           currentTimeRange := "medium_term" })) := by
  have h := stats_missing_items_total.1 [("access_token", some "x")] none
    ⟨none⟩ ⟨none⟩ (by decide) rfl rfl
  exact h

/-- A `writerow` of three fields is the comma-join of their encodings
followed by the line terminator. -/
theorem csvRow_triple (a b c : String) :
    csvRow [a, b, c]
      = csvField a ++ "," ++ csvField b ++ "," ++ csvField c ++ "\r\n" := by
  simp [csvRow, sepJoin, String.append_assoc]

/-- Claim C5: an authenticated `/export` builds a CSV of exactly one header
row `Type,Name,Popularity` followed by one row per track (fields
`Track`, name, popularity) in response order and then one row per
artist (fields `Artist`, name, popularity) in response order; stores it
under the key `spotify_report_<time_range>_<timestamp>.csv`, which
contains the time range as a literal substring; and responds with a
redirect to a presigned retrieval URL generated for that key with a
3600-second expiry. -/
theorem export_csv_and_presigned_url (sess : Session) (trParam : Option String)
    (tracksResp artistsResp : TopResp CsvItem) (bucket now : String)
    (presign : String → String → Nat → String)
    (tracks artists : List CsvItem)
    (hauth : truthy (sessGet sess "access_token") = true)
    (ht : tracksResp.items = some tracks)
    (ha : artistsResp.items = some artists) :
    exportRoute sess trParam tracksResp artistsResp bucket now presign =
      ([Call.httpGet (exTracksUrl (trParam.getD "medium_term"))
          (some ("Bearer " ++ (sessGet sess "access_token").getD "")),
        Call.httpGet (exArtistsUrl (trParam.getD "medium_term"))
          (some ("Bearer " ++ (sessGet sess "access_token").getD "")),
        Call.s3Put bucket (exportKey (trParam.getD "medium_term") now)
          (exportCsv tracks artists),
        Call.s3Presign bucket (exportKey (trParam.getD "medium_term") now)
          3600],
       .redirectUrl
         (presign bucket (exportKey (trParam.getD "medium_term") now) 3600)) ∧
    exportCsv tracks artists =
      "Type,Name,Popularity\r\n"
        ++ String.join (tracks.map (fun t =>
            "Track" ++ "," ++ csvField t.name ++ ","
              ++ csvField (toString t.popularity) ++ "\r\n"))
        ++ String.join (artists.map (fun a =>
            "Artist" ++ "," ++ csvField a.name ++ ","
              ++ csvField (toString a.popularity) ++ "\r\n")) ∧
    exportKey (trParam.getD "medium_term") now
      = "spotify_report_" ++ trParam.getD "medium_term" ++ "_" ++ now
          ++ ".csv" ∧
    (∃ s1 s2, exportKey (trParam.getD "medium_term") now
      = s1 ++ trParam.getD "medium_term" ++ s2) := by
  have hT : csvField "Track" = "Track" := by decide
  have hA : csvField "Artist" = "Artist" := by decide
  have hhdr : csvRow ["Type", "Name", "Popularity"]
      = "Type,Name,Popularity\r\n" := by decide
  have htrack : ∀ t : CsvItem, csvRow ["Track", t.name, toString t.popularity]
      = "Track" ++ "," ++ csvField t.name ++ ","
          ++ csvField (toString t.popularity) ++ "\r\n" := by
    intro t
    rw [csvRow_triple, hT]
  have hartist : ∀ a : CsvItem, csvRow ["Artist", a.name, toString a.popularity]
      = "Artist" ++ "," ++ csvField a.name ++ ","
          ++ csvField (toString a.popularity) ++ "\r\n" := by
    intro a
    rw [csvRow_triple, hA]
  refine ⟨?_, ?_, rfl, ⟨"spotify_report_", "_" ++ now ++ ".csv", ?_⟩⟩
  · simp [exportRoute, hauth, ht, ha]
  · simp only [exportCsv, hhdr, htrack, hartist]
  · simp [exportKey, String.append_assoc]

theorem export_csv_and_presigned_url_witness :
    exportRoute [("access_token", some "tk")] (some "long_term")
        ⟨some [⟨"A", 50⟩, ⟨"B", 60⟩]⟩ ⟨some [⟨"C", 70⟩]⟩ "bkt"
        "20250101120000" (fun b k e => b ++ "/" ++ k ++ "?exp="
          ++ toString e) =
      ([Call.httpGet (exTracksUrl "long_term") (some "Bearer tk"),
        Call.httpGet (exArtistsUrl "long_term") (some "Bearer tk"),
        Call.s3Put "bkt" (exportKey "long_term" "20250101120000")
          (exportCsv [⟨"A", 50⟩, ⟨"B", 60⟩] [⟨"C", 70⟩]),
        Call.s3Presign "bkt" (exportKey "long_term" "20250101120000") 3600],
       .redirectUrl ("bkt" ++ "/" ++ exportKey "long_term" "20250101120000"
         ++ "?exp=" ++ toString 3600)) ∧
    exportCsv [⟨"A", 50⟩, ⟨"B", 60⟩] [⟨"C", 70⟩]
      = "Type,Name,Popularity\r\nTrack,A,50\r\nTrack,B,60\r\nArtist,C,70\r\n" ∧
    exportKey "long_term" "20250101120000"
      = "spotify_report_long_term_20250101120000.csv" := by
  have h := export_csv_and_presigned_url [("access_token", some "tk")]
    (some "long_term") ⟨some [⟨"A", 50⟩, ⟨"B", 60⟩]⟩ ⟨some [⟨"C", 70⟩]⟩
    "bkt" "20250101120000"
    (fun b k e => b ++ "/" ++ k ++ "?exp=" ++ toString e)
    [⟨"A", 50⟩, ⟨"B", 60⟩] [⟨"C", 70⟩] (by decide) rfl rfl
  exact ⟨h.1, by decide, by decide⟩

/-- Claim C1: for an authenticated `/stats` request whose top-tracks response
has N ≤ 10 items (all carrying an album), the rendered album list has at
most 10 entries and is the pair-sorted album dictionary with ids
dropped; that dictionary has exactly one entry per distinct album id,
in first-occurrence order, each taking name and image from the first
track seen with that album id and counting the tracks that carry it;
and the sort is by count descending, a permutation of the entries, with
equal-count entries kept in dictionary (first-occurrence) order. -/
theorem stats_top_albums_correct (sess : Session) (trParam : Option String)
    (tracksResp : TopResp TrackObj) (artistsResp : TopResp ArtistObj)
    (items : List TrackObj) (albs : List AlbumObj)
    (hauth : truthy (sessGet sess "access_token") = true)
    (hitems : tracksResp.items = some items)
    (halbs : getAlbums items = .ok albs)
    (hN : items.length ≤ 10) :
    ∃ (assoc : List (String × AlbumSummary)) (topTracks : List TrackSummary),
      buildAlbums items = .ok assoc ∧
      stats sess trParam tracksResp artistsResp =
        ([Call.httpGet (tracksUrl (trParam.getD "medium_term"))
            (some ("Bearer " ++ (sessGet sess "access_token").getD "")),
          Call.httpGet (artistsUrl (trParam.getD "medium_term"))
            (some ("Bearer " ++ (sessGet sess "access_token").getD ""))],
         .ok (.statsPage
           { tracks := topTracks
             artists := (artistsResp.items.getD []).map artistSummary
             albums := (sortPairs assoc).map Prod.snd
             currentTimeRange := trParam.getD "medium_term" })) ∧
      ((sortPairs assoc).map Prod.snd).length ≤ 10 ∧
      (assoc.map Prod.fst).Nodup ∧
      assoc.map Prod.fst = firstKeysAux (albs.map (fun a => a.id)) [] ∧
      (∀ i, i ∈ assoc.map Prod.fst ↔ i ∈ albs.map (fun a => a.id)) ∧
      (∀ p ∈ assoc, ∃ a, albs.find? (fun x => x.id == p.1) = some a ∧
          p.2.name = a.name ∧ p.2.image = firstImage a.images ∧
          p.2.count = albs.countP (fun x => x.id == p.1)) ∧
      (sortPairs assoc).Perm assoc ∧
      (sortPairs assoc).Pairwise (fun x y => y.2.count ≤ x.2.count) ∧
      (∀ c, (sortPairs assoc).filter (fun p => p.2.count == c)
            = assoc.filter (fun p => p.2.count == c)) := by
  obtain ⟨topTracks, hts⟩ := trackSummaries_ok items albs halbs
  have hba : buildAlbums items = .ok (albumsFold albs []) :=
    albumsLoop_eq_fold items albs [] halbs
  have hlen : ((sortPairs (albumsFold albs [])).map Prod.snd).length ≤ 10 := by
    rw [List.length_map, sortPairs, length_sortCountDesc]
    calc (albumsFold albs []).length
        ≤ albs.length := albumsFold_length_le albs
      _ = items.length := getAlbums_length items albs halbs
      _ ≤ 10 := hN
  refine ⟨albumsFold albs [], topTracks, hba, ?_, hlen, albumsFold_nodup albs,
    albumsFold_keys_nil albs, ?_, ?_, ?_, ?_, ?_⟩
  · have heval := stats_eval sess trParam tracksResp artistsResp items
      topTracks (albumsFold albs []) hauth hitems hts hba
    rw [List.take_of_length_le hlen] at heval
    exact heval
  · intro i
    rw [albumsFold_keys_nil, mem_firstKeysAux]
    simp
  · intro p hp
    exact albumsFold_entry_spec albs p hp
  · exact sortCountDesc_perm _ _
  · exact sortCountDesc_pairwise _ _
  · intro c
    exact filter_sortCountDesc (fun p => p.2.count) c (albumsFold albs [])

theorem stats_top_albums_correct_witness :
    ∃ (assoc : List (String × AlbumSummary)) (topTracks : List TrackSummary),
      buildAlbums
          [{ name := "s1", artists := [⟨"a1"⟩],
             album := some ⟨"al1", "Album One", [⟨"u1"⟩]⟩ },
           { name := "s2", artists := [], album := some ⟨"al2", "Album Two", []⟩ },
           { name := "s3", artists := [⟨"a2"⟩],
             album := some ⟨"al1", "Other Name", []⟩ }] = .ok assoc ∧
      stats [("access_token", some "tk")] none
          ⟨some [{ name := "s1", artists := [⟨"a1"⟩],
                   album := some ⟨"al1", "Album One", [⟨"u1"⟩]⟩ },
                 { name := "s2", artists := [],
                   album := some ⟨"al2", "Album Two", []⟩ },
                 { name := "s3", artists := [⟨"a2"⟩],
                   album := some ⟨"al1", "Other Name", []⟩ }]⟩ ⟨some []⟩ =
        ([Call.httpGet (tracksUrl "medium_term") (some ("Bearer " ++ "tk")),
          Call.httpGet (artistsUrl "medium_term") (some ("Bearer " ++ "tk"))],
         .ok (.statsPage
           { tracks := topTracks
             artists := []
             albums := (sortPairs assoc).map Prod.snd
             currentTimeRange := "medium_term" })) ∧
      ((sortPairs assoc).map Prod.snd).length ≤ 10 ∧
      (assoc.map Prod.fst).Nodup ∧
      assoc.map Prod.fst =
        firstKeysAux (List.map (fun a => a.id)
          ([⟨"al1", "Album One", [⟨"u1"⟩]⟩, ⟨"al2", "Album Two", []⟩,
            ⟨"al1", "Other Name", []⟩] : List AlbumObj)) [] ∧
      (∀ i, i ∈ assoc.map Prod.fst ↔ i ∈ List.map (fun a => a.id)
          ([⟨"al1", "Album One", [⟨"u1"⟩]⟩, ⟨"al2", "Album Two", []⟩,
            ⟨"al1", "Other Name", []⟩] : List AlbumObj)) ∧
      (∀ p ∈ assoc, ∃ a,
          List.find? (fun x => x.id == p.1)
            ([⟨"al1", "Album One", [⟨"u1"⟩]⟩, ⟨"al2", "Album Two", []⟩,
              ⟨"al1", "Other Name", []⟩] : List AlbumObj) = some a ∧
          p.2.name = a.name ∧ p.2.image = firstImage a.images ∧
          p.2.count = List.countP (fun x => x.id == p.1)
            ([⟨"al1", "Album One", [⟨"u1"⟩]⟩, ⟨"al2", "Album Two", []⟩,
              ⟨"al1", "Other Name", []⟩] : List AlbumObj)) ∧
      (sortPairs assoc).Perm assoc ∧
      (sortPairs assoc).Pairwise (fun x y => y.2.count ≤ x.2.count) ∧
      (∀ c, (sortPairs assoc).filter (fun p => p.2.count == c)
            = assoc.filter (fun p => p.2.count == c)) := by
  exact stats_top_albums_correct [("access_token", some "tk")] none
    ⟨some [{ name := "s1", artists := [⟨"a1"⟩],
             album := some ⟨"al1", "Album One", [⟨"u1"⟩]⟩ },
           { name := "s2", artists := [], album := some ⟨"al2", "Album Two", []⟩ },
           { name := "s3", artists := [⟨"a2"⟩],
             album := some ⟨"al1", "Other Name", []⟩ }]⟩ ⟨some []⟩
    [{ name := "s1", artists := [⟨"a1"⟩],
       album := some ⟨"al1", "Album One", [⟨"u1"⟩]⟩ },
     { name := "s2", artists := [], album := some ⟨"al2", "Album Two", []⟩ },
     { name := "s3", artists := [⟨"a2"⟩],
       album := some ⟨"al1", "Other Name", []⟩ }]
    [⟨"al1", "Album One", [⟨"u1"⟩]⟩, ⟨"al2", "Album Two", []⟩,
     ⟨"al1", "Other Name", []⟩]
    (by decide) rfl rfl (by decide)

/-- Claim C10: the album aggregation yields pairwise-distinct album ids whose
counts are each at least 1 and sum to the number of input tracks; the
number of entries never exceeds the number of tracks, so with at most
10 tracks the final `[:10]` truncation discards nothing. -/
theorem album_aggregation_partition (items : List TrackObj)
    (albs : List AlbumObj) (halbs : getAlbums items = .ok albs) :
    ∃ assoc, buildAlbums items = .ok assoc ∧
      (assoc.map Prod.fst).Nodup ∧
      (∀ p ∈ assoc, 1 ≤ p.2.count) ∧
      sumCounts assoc = items.length ∧
      assoc.length ≤ items.length ∧
      (items.length ≤ 10 →
        ((sortPairs assoc).map Prod.snd).take 10
          = (sortPairs assoc).map Prod.snd) := by
  have hba : buildAlbums items = .ok (albumsFold albs []) :=
    albumsLoop_eq_fold items albs [] halbs
  have hlenle : (albumsFold albs []).length ≤ items.length :=
    le_trans (albumsFold_length_le albs)
      (le_of_eq (getAlbums_length items albs halbs))
  refine ⟨albumsFold albs [], hba, albumsFold_nodup albs, ?_, ?_, hlenle, ?_⟩
  · intro p hp
    obtain ⟨a, hfa, _, _, hcount⟩ := albumsFold_entry_spec albs p hp
    rw [hcount]
    have hmem := List.mem_of_find?_eq_some hfa
    have hpa := List.find?_some hfa
    have hpos : 0 < albs.countP (fun x => x.id == p.1) :=
      List.countP_pos_iff.mpr ⟨a, hmem, hpa⟩
    omega
  · calc sumCounts (albumsFold albs [])
        = sumCounts [] + albs.length := sumCounts_albumsFold albs []
      _ = albs.length := by simp [sumCounts]
      _ = items.length := getAlbums_length items albs halbs
  · intro h10
    apply List.take_of_length_le
    rw [List.length_map, sortPairs, length_sortCountDesc]
    exact le_trans hlenle h10

theorem album_aggregation_partition_witness :
    ∃ assoc, buildAlbums
        [{ name := "s1", artists := [], album := some ⟨"x", "X", []⟩ },
         { name := "s2", artists := [], album := some ⟨"y", "Y", []⟩ },
         { name := "s3", artists := [], album := some ⟨"x", "X2", []⟩ },
         { name := "s4", artists := [], album := some ⟨"x", "X3", []⟩ }]
        = .ok assoc ∧
      (assoc.map Prod.fst).Nodup ∧
      (∀ p ∈ assoc, 1 ≤ p.2.count) ∧
      sumCounts assoc = 4 ∧
      assoc.length ≤ 4 ∧
      (4 ≤ 10 →
        ((sortPairs assoc).map Prod.snd).take 10
          = (sortPairs assoc).map Prod.snd) := by
  exact album_aggregation_partition
    [{ name := "s1", artists := [], album := some ⟨"x", "X", []⟩ },
     { name := "s2", artists := [], album := some ⟨"y", "Y", []⟩ },
     { name := "s3", artists := [], album := some ⟨"x", "X2", []⟩ },
     { name := "s4", artists := [], album := some ⟨"x", "X3", []⟩ }]
    [⟨"x", "X", []⟩, ⟨"y", "Y", []⟩, ⟨"x", "X2", []⟩, ⟨"x", "X3", []⟩] rfl

end SpotifyStats
